import Mathlib

/-!
Verification development for the go-cryptocom exchange client library:
the authenticated request construction and response classification
pipeline.  Pure parts (canonicalization, signature message assembly,
error classification) are embedded as executable Lean functions; the
per-operation orchestration is embedded as a function from an explicit
environment of injected collaborators (clock, id generator, signature
generator, HTTP transport) to an outcome carrying the ordered trace of
collaborator invocations, so that statements about which collaborators
an operation invokes are expressible.

The repository material at hand contains the test files and the
generated `internal/gen.go` (which holds the real `GetInstruments`
implementation); the remaining client code (canonicalizer, signature
generator, error classifier, the other operations) is modelled from
the specification, staying consistent with the expectations the tests
encode.
-/

namespace CdcExchange

/-- Modelled from the spec (§4.1): the closed universe of parameter
values: scalars (string, integer, boolean), nested mappings and
ordered sequences.  Floating-point scalars with integral values are
required by the spec to render exactly like integers, so integral
numerics are represented by the `int` constructor; non-integral floats
are outside this embedding. -/
inductive Value where
  | str : String → Value
  | int : Int → Value
  | bool : Bool → Value
  | obj : List (String × Value) → Value
  | arr : List Value → Value

/-- Key-sorting used by the canonicalizer: lexicographic (byte-wise
for the ASCII keys the exchange uses) on the key component. -/
def sortPairs (l : List (String × String)) : List (String × String) :=
  List.insertionSort (fun a b => a.1 ≤ b.1) l

/-- Concatenate `key ++ value` pairs with no separator, per the
exchange convention. -/
def joinPairs : List (String × String) → String
  | [] => ""
  | (k, v) :: rest => k ++ v ++ joinPairs rest

mutual
/-- Modelled from the spec (§4.1 ParamCanonicalizer): canonical text
form of one value.  Nested mappings recurse with the same
sort-then-concatenate rule; sequences concatenate element forms in
original order. -/
def canonV : Value → String
  | .str s => s
  | .int n => toString n
  | .bool b => if b then "true" else "false"
  | .obj kvs => joinPairs (sortPairs (canonPairs kvs))
  | .arr vs => canonList vs

/-- Render each mapping entry's value, keeping the key. -/
def canonPairs : List (String × Value) → List (String × String)
  | [] => []
  | (k, v) :: rest => (k, canonV v) :: canonPairs rest

/-- Concatenate canonical forms of sequence elements in order. -/
def canonList : List Value → String
  | [] => ""
  | v :: rest => canonV v ++ canonList rest
end

/-- Modelled from the spec (§4.1): canonicalize a top-level parameter
mapping: sort keys byte-wise, then concatenate `key ++ canonical value`. -/
def canonParams (params : List (String × Value)) : String :=
  joinPairs (sortPairs (canonPairs params))

/-! ### SHA-256 and HMAC (modelled from the spec, §4.2)

The signature generator itself is not among the files at hand (only
its interface and mock are), so the MAC is modelled from the spec:
HMAC with SHA-256, keyed by the secret, rendered as lowercase
hexadecimal.  Bytes are `Nat`s below 256; strings are taken as their
ASCII byte sequences (all strings the scenarios exercise are ASCII,
where code points and UTF-8 bytes coincide). -/

/-- ASCII byte sequence of a string. -/
def strBytes (s : String) : List Nat := s.data.map Char.toNat

/-- Truncate to a 32-bit word. -/
def w32 (n : Nat) : Nat := n % 4294967296

/-- Rotate a 32-bit word right by `n` bits. -/
def rotr (n w : Nat) : Nat := w32 ((w >>> n) ||| (w <<< (32 - n)))

/-- SHA-256 `Ch` function. -/
def ch32 (x y z : Nat) : Nat := (x &&& y) ^^^ ((x ^^^ 4294967295) &&& z)

/-- SHA-256 `Maj` function. -/
def maj32 (x y z : Nat) : Nat := (x &&& y) ^^^ (x &&& z) ^^^ (y &&& z)

/-- SHA-256 big sigma 0. -/
def bSig0 (w : Nat) : Nat := rotr 2 w ^^^ rotr 13 w ^^^ rotr 22 w

/-- SHA-256 big sigma 1. -/
def bSig1 (w : Nat) : Nat := rotr 6 w ^^^ rotr 11 w ^^^ rotr 25 w

/-- SHA-256 small sigma 0. -/
def sSig0 (w : Nat) : Nat := rotr 7 w ^^^ rotr 18 w ^^^ (w >>> 3)

/-- SHA-256 small sigma 1. -/
def sSig1 (w : Nat) : Nat := rotr 17 w ^^^ rotr 19 w ^^^ (w >>> 10)

/-- SHA-256 round constants (decimal renderings of the FIPS 180-4
words). -/
def sha256K : List Nat :=
  [1116352408, 1899447441, 3049323471, 3921009573, 961987163, 1508970993,
   2453635748, 2870763221, 3624381080, 310598401, 607225278, 1426881987,
   1925078388, 2162078206, 2614888103, 3248222580, 3835390401, 4022224774,
   264347078, 604807628, 770255983, 1249150122, 1555081692, 1996064986,
   2554220882, 2821834349, 2952996808, 3210313671, 3336571891, 3584528711,
   113926993, 338241895, 666307205, 773529912, 1294757372, 1396182291,
   1695183700, 1986661051, 2177026350, 2456956037, 2730485921, 2820302411,
   3259730800, 3345764771, 3516065817, 3600352804, 4094571909, 275423344,
   430227734, 506948616, 659060556, 883997877, 958139571, 1322822218,
   1537002063, 1747873779, 1955562222, 2024104815, 2227730452, 2361852424,
   2428436474, 2756734187, 3204031479, 3329325298]

/-- SHA-256 initial hash state (decimal renderings of the FIPS 180-4
words). -/
def sha256H0 : List Nat :=
  [1779033703, 3144134277, 1013904242, 2773480762,
   1359893119, 2600822924, 528734635, 1541459225]

/-- Big-endian byte rendering of a number in `k` bytes. -/
def bytesBE : Nat → Nat → List Nat
  | 0, _ => []
  | k + 1, n => bytesBE k (n >>> 8) ++ [n &&& 255]

/-- SHA-256 message padding: append 0x80, zero bytes to 56 mod 64,
then the bit length as 8 big-endian bytes. -/
def padMsg (msg : List Nat) : List Nat :=
  let r := (msg.length + 1) % 64
  msg ++ [0x80] ++ List.replicate ((120 - r) % 64) 0 ++ bytesBE 8 (msg.length * 8)

/-- Group bytes into big-endian 32-bit words. -/
def toWords : List Nat → List Nat
  | b0 :: b1 :: b2 :: b3 :: rest => (((b0 * 256 + b1) * 256 + b2) * 256 + b3) :: toWords rest
  | _ => []

/-- One message-schedule extension step. -/
def schedStep (w : List Nat) : List Nat :=
  w ++ [w32 (sSig1 (w.getD (w.length - 2) 0) + w.getD (w.length - 7) 0 +
             sSig0 (w.getD (w.length - 15) 0) + w.getD (w.length - 16) 0)]

/-- Extend the 16 block words to the 64-entry message schedule. -/
def fullSchedule (w : List Nat) : List Nat := schedStep^[48] w

/-- One SHA-256 compression round on the 8-word working state. -/
def sha256Round (st : List Nat) (kw : Nat × Nat) : List Nat :=
  match st with
  | [a, b, c, d, e, f, g, h] =>
    let t1 := w32 (h + bSig1 e + ch32 e f g + kw.1 + kw.2)
    let t2 := w32 (bSig0 a + maj32 a b c)
    [w32 (t1 + t2), a, b, c, w32 (d + t1), e, f, g]
  | _ => st

/-- Compress one 64-byte block into the hash state. -/
def sha256Compress (h : List Nat) (block : List Nat) : List Nat :=
  let st := ((sha256K.zip (fullSchedule (toWords block))).foldl sha256Round h)
  (h.zip st).map (fun p => w32 (p.1 + p.2))

/-- Split a byte list into 64-byte blocks. -/
def chunk64 : List Nat → List (List Nat)
  | [] => []
  | b :: l => ((b :: l).take 64) :: chunk64 ((b :: l).drop 64)
termination_by l => l.length
decreasing_by simp [List.length_drop]; omega

/-- SHA-256 of a byte sequence, as 32 bytes. -/
def sha256 (msg : List Nat) : List Nat :=
  (((chunk64 (padMsg msg)).foldl sha256Compress sha256H0).map (bytesBE 4)).flatten

/-- HMAC-SHA256 of a message under a key, as 32 bytes. -/
def hmacSHA256 (key msg : List Nat) : List Nat :=
  let k0 := if 64 < key.length then sha256 key else key
  let kpad := k0 ++ List.replicate (64 - k0.length) 0
  sha256 ((kpad.map (fun b => b ^^^ 0x5c)) ++ sha256 ((kpad.map (fun b => b ^^^ 0x36)) ++ msg))

/-- Lowercase hex digit. -/
def hexChar (n : Nat) : Char := if n < 10 then Char.ofNat (48 + n) else Char.ofNat (87 + n)

/-- Two lowercase hex digits of one byte. -/
def byteHex (b : Nat) : String := String.mk [hexChar (b / 16), hexChar (b % 16)]

/-- Lowercase hexadecimal rendering of a byte sequence. -/
def bytesHex (bs : List Nat) : String := String.join (bs.map byteHex)

/-- HMAC-SHA256 over strings, rendered as lowercase hexadecimal. -/
def hmacSHA256Hex (key msg : String) : String := bytesHex (hmacSHA256 (strBytes key) (strBytes msg))

/-- The input to the signature generator, mirroring
`auth.SignatureRequest` as the tests construct it:
{APIKey, SecretKey, ID, Method, Timestamp, Params}. -/
structure SignatureRequest where
  apiKey : String
  secretKey : String
  id : Int
  method : String
  timestamp : Int
  params : List (String × Value)

/-- Modelled from the spec (§4.2 SignatureGenerator, not among the
files at hand): HMAC keyed by the secret over
`Method ++ ID ++ APIKey ++ canonicalParams ++ Nonce`, with ID and
nonce in decimal text form, rendered as lowercase hexadecimal. -/
def generateSignature (r : SignatureRequest) : String :=
  hmacSHA256Hex r.secretKey
    (r.method ++ toString r.id ++ r.apiKey ++ canonParams r.params ++ toString r.timestamp)

/-! ### Error taxonomy and classification

Modelled from the spec (§3, §4.5, §7) and the `errors` package the
tests consume (`InvalidParameterError`, `ResponseError`,
`ErrIllegalIP`), whose source is not among the files at hand.  Error
values form chains in the manner of Go's `errors` package:
`wrapped` mirrors wrapping with a context message, and a
`responseError`'s cause is its sentinel field. -/

/-- Stable sentinels for known exchange error codes.  The scenarios
exercise only the illegal-IP code (10003); every other code maps to
the opaque unknown-code sentinel. -/
inductive Sentinel where
  | illegalIP : Sentinel
  | unknownCode : Sentinel
deriving DecidableEq

/-- Errors as chain-of-causes values: opaque base errors (used for
injected transport and signing failures), sentinels, client-side
`InvalidParameterError{Parameter, Reason}`, exchange
`ResponseError{Code, HTTPStatusCode, Err}` whose cause is its
sentinel, and context-wrapped errors. -/
inductive GoError where
  | base : Nat → GoError
  | sentinel : Sentinel → GoError
  | invalidParameter : String → String → GoError
  | responseError : Int → Int → GoError → GoError
  | wrapped : String → GoError → GoError
deriving DecidableEq

/-- The illegal-IP sentinel `cdcerrors.ErrIllegalIP`. -/
def ErrIllegalIP : GoError := .sentinel .illegalIP

/-- `errors.Is`-style chain inspection: the target is the error
itself or is reachable by unwrapping (a wrapped error unwraps to its
cause; a response error unwraps to its sentinel). -/
inductive ErrorsIs : GoError → GoError → Prop where
  | refl (e : GoError) : ErrorsIs e e
  | unwrapResponse {c t : GoError} (code st : Int) : ErrorsIs c t → ErrorsIs (.responseError code st c) t
  | unwrapWrapped {c t : GoError} (m : String) : ErrorsIs c t → ErrorsIs (.wrapped m c) t

/-- `errors.As`-style extraction of the first `ResponseError` in the
chain: its code, HTTP status code and `Err` field. -/
def errorsAsResponse : GoError → Option (Int × Int × GoError)
  | .responseError code st c => some (code, st, c)
  | .wrapped _ c => errorsAsResponse c
  | _ => none

/-- `errors.As`-style extraction of the first `InvalidParameterError`
in the chain: its parameter and reason. -/
def errorsAsInvalidParameter : GoError → Option (String × String)
  | .invalidParameter p r => some (p, r)
  | .wrapped _ c => errorsAsInvalidParameter c
  | _ => none

/-- Modelled from the spec: parse the decimal text of an exchange
code (a JSON string or number on the wire, held as text) into the
numeric code callers observe. -/
def parseCode (s : String) : Int :=
  Int.ofNat (s.data.foldl (fun n c => n * 10 + (c.toNat - 48)) 0)

/-- Modelled from the spec (§4.5): the known-code table, restricted
to the code the scenarios exercise: 10003 is the illegal-IP code;
anything else maps to the unknown-code sentinel, the raw code being
preserved on the `ResponseError` itself. -/
def knownSentinel (code : Int) : Sentinel :=
  if code = 10003 then .illegalIP else .unknownCode

/-- Modelled from the spec (§4.5, §6): classification of an
(HTTP status, exchange code) pair.  Success is a 2xx status together
with the zero code; any other combination yields a `ResponseError`
carrying the parsed numeric code, the HTTP status and the sentinel
for the code. -/
def checkErrorResponse (status : Int) (code : String) : Option GoError :=
  if 200 ≤ status ∧ status < 300 ∧ code = "0" then none
  else some (.responseError (parseCode code) status (.sentinel (knownSentinel (parseCode code))))

/-! ### Wire envelope, collaborators and the per-operation pipeline -/

/-- The request envelope `api.Request`: {id, method, api_key, params,
nonce, sig}.  Fields an operation does not set keep their Go zero
values. -/
structure Request where
  id : Int := 0
  method : String := ""
  apiKey : String := ""
  params : List (String × Value) := []
  nonce : Int := 0
  sig : String := ""

/-- An outbound HTTP exchange: an authenticated POST with a signed
JSON body, or a public GET whose parameters travel as a query
string. -/
inductive HttpReq where
  | post : Request → HttpReq
  | get : Request → List (String × String) → HttpReq

/-- The decoded common response envelope as far as classification is
concerned: the HTTP status and the exchange code text. -/
structure HttpResp where
  status : Int
  code : String

/-- One collaborator invocation, recorded in order: the ID generator,
the clock, the signature generator (with its request) or the HTTP
transport (with its request). -/
inductive Call where
  | genID : Call
  | clock : Call
  | sign : SignatureRequest → Call
  | http : HttpReq → Call

/-- Whether a call is an ID-generator invocation. -/
def Call.isGenID : Call → Bool
  | .genID => true
  | _ => false

/-- Whether a call is a clock invocation. -/
def Call.isClock : Call → Bool
  | .clock => true
  | _ => false

/-- Whether a call is a signature-generator invocation. -/
def Call.isSign : Call → Bool
  | .sign _ => true
  | _ => false

/-- Whether a call is an HTTP-transport invocation. -/
def Call.isHttp : Call → Bool
  | .http _ => true
  | _ => false

/-- Opaque domain payload of one trade; its fields are decoded from
the response body and play no role in the pipeline. -/
structure Trade where
  tag : Nat
deriving DecidableEq

/-- Opaque domain payload of one order book result. -/
structure BookResult where
  tag : Nat
deriving DecidableEq

/-- One instrument, as declared in `internal/gen.go`
(strings, integers and booleans only). -/
structure Instrument where
  instrumentName : String := ""
  quoteCurrency : String := ""
  baseCurrency : String := ""
  priceDecimals : Int := 0
  quantityDecimals : Int := 0
  marginTradingEnabled : Bool := false
  marginTradingEnabled5X : Bool := false
  marginTradingEnabled10X : Bool := false
  maxQuantity : String := ""
  minQuantity : String := ""
  maxPrice : String := ""
  minPrice : String := ""
  lastUpdateDate : Int := 0
  quantityTickSize : String := ""
  priceTickSize : String := ""
deriving DecidableEq

/-- The injected collaborators and configuration of one client, plus
the decode seams supplying each operation's domain payload on a fully
successful exchange: API key, secret, a fixed clock (milliseconds), an
ID generator returning `nextId`, the signature generator, the HTTP
transport, and the decoded payloads. -/
structure Env where
  apiKey : String
  secretKey : String
  nowMs : Int
  nextId : Int
  sign : SignatureRequest → Except GoError String
  http : HttpReq → Except GoError HttpResp
  tradesResult : List Trade := []
  bookResult : Option BookResult := none
  instrumentsResult : List Instrument := []

/-- Outcome of one operation: the domain result, the error (if any)
and the ordered trace of collaborator invocations. -/
structure OpOut (α : Type) where
  res : α
  err? : Option GoError
  calls : List Call

/-- The signature requests an operation handed to the signature
generator, in order. -/
def signReqs {α : Type} (o : OpOut α) : List SignatureRequest :=
  o.calls.filterMap fun c => match c with
    | .sign r => some r
    | _ => none

/-- The POST bodies an operation handed to the HTTP transport, in
order. -/
def postBodies {α : Type} (o : OpOut α) : List Request :=
  o.calls.filterMap fun c => match c with
    | .http (.post b) => some b
    | _ => none

/-- The signature request an authenticated operation submits: the
client's key material, the generated ID, the method, the clock's
milliseconds and the operation's parameter mapping. -/
def sigReqOf (env : Env) (method : String) (params : List (String × Value)) :
    SignatureRequest :=
  { apiKey := env.apiKey, secretKey := env.secretKey, id := env.nextId
    method := method, timestamp := env.nowMs, params := params }

/-- The signed envelope an authenticated operation POSTs. -/
def bodyOf (env : Env) (method : String) (params : List (String × Value)) (sig : String) :
    Request :=
  { id := env.nextId, method := method, apiKey := env.apiKey
    params := params, nonce := env.nowMs, sig := sig }

/-- Modelled from the spec (§2, §4.3, §4.4): the authenticated-call
pipeline after validation has passed.  The ID generator and clock
produce (ID, nonce); the signature generator signs
{APIKey, SecretKey, ID, Method, Timestamp, Params}; a signing failure
aborts before any network I/O; otherwise the envelope is POSTed, a
transport failure is wrapped and returned verbatim, and otherwise the
(status, code) pair is classified. -/
def runAuth (env : Env) (method : String) (params : List (String × Value)) :
    Option GoError × List Call :=
  let sigReq := sigReqOf env method params
  let pre := [Call.genID, Call.clock, Call.sign sigReq]
  match env.sign sigReq with
  | .error e => (some (.wrapped "failed to generate signature" e), pre)
  | .ok sig =>
    let body := bodyOf env method params sig
    let calls := pre ++ [Call.http (.post body)]
    match env.http (.post body) with
    | .error e => (some (.wrapped "failed to execute post request" e), calls)
    | .ok resp =>
      match checkErrorResponse resp.status resp.code with
      | some e => (some (.wrapped "error received in response" e), calls)
      | none => (none, calls)

/-- Modelled from the spec: the cancel-all-orders method string (the
end-to-end scenario of §8 renders it `CANCEL_ALL_ORDERS` at the head
of the signed message). -/
def methodCancelAllOrders : String := "CANCEL_ALL_ORDERS"

/-- Modelled from the spec: the get-trades RPC method identifier,
`private/get-trades` by the endpoint naming convention
`internal/gen.go` exhibits; no claim depends on its exact text. -/
def methodGetTrades : String := "private/get-trades"

/-- Modelled from the spec: the get-book RPC method identifier. -/
def methodGetBook : String := "public/get-book"

/-- The get-instruments method string, from `internal/gen.go`. -/
def methodGetInstruments : String := "public/get-instruments"

/-- Modelled from the spec (§4.3) and the cancel-all-orders tests:
validate the instrument name, then run the authenticated pipeline
with `params = {"instrument_name": instrumentName}`. -/
def cancelAllOrders (env : Env) (instrumentName : String) : OpOut Unit :=
  if instrumentName = "" then
    ⟨(), some (.invalidParameter "instrumentName" "cannot be empty"), []⟩
  else
    let (e, calls) := runAuth env methodCancelAllOrders [("instrument_name", .str instrumentName)]
    ⟨(), e, calls⟩

/-- The get-trades request as the tests construct it.  `startTs` and
`endTs` model the `Start`/`End` times: `none` is the unset (zero)
time, `some t` a set time with millisecond value `t`. -/
structure GetTradesRequest where
  instrumentName : String := ""
  pageSize : Int := 0
  page : Int := 0
  startTs : Option Int := none
  endTs : Option Int := none

/-- Modelled from the spec (§4.1 rule 6) and the get-trades success
tests: unset optional fields are omitted from the parameter mapping;
`page` is always present (the tests expect `"page": 0` for an empty
request). -/
def tradesParams (r : GetTradesRequest) : List (String × Value) :=
  (if r.instrumentName = "" then [] else [("instrument_name", Value.str r.instrumentName)])
  ++ (if r.pageSize = 0 then [] else [("page_size", Value.int r.pageSize)])
  ++ [("page", Value.int r.page)]
  ++ (match r.startTs with
      | some t => [("start_ts", Value.int t)]
      | none => [])
  ++ (match r.endTs with
      | some t => [("end_ts", Value.int t)]
      | none => [])

/-- Modelled from the spec (§4.3) and the get-trades tests: validate
the page size bounds (0 to 200), then run the authenticated pipeline;
on any error the empty trade list is returned. -/
def getTrades (env : Env) (req : GetTradesRequest) : OpOut (List Trade) :=
  if req.pageSize < 0 then
    ⟨[], some (.invalidParameter "req.Limit" "cannot be less than 0"), []⟩
  else if 200 < req.pageSize then
    ⟨[], some (.invalidParameter "req.Limit" "cannot be greater than 200"), []⟩
  else
    match runAuth env methodGetTrades (tradesParams req) with
    | (some e, calls) => ⟨[], some e, calls⟩
    | (none, calls) => ⟨env.tradesResult, none, calls⟩

/-- The requester-then-classifier step shared by the read
operations: a transport failure is wrapped with the operation's
message and returned verbatim; otherwise the (status, code) pair is
classified and an exchange error is wrapped as
`error received in response`. -/
def classifyExchange (wrapMsg : String) (r : Except GoError HttpResp) : Option GoError :=
  match r with
  | .error e => some (.wrapped wrapMsg e)
  | .ok resp =>
    (checkErrorResponse resp.status resp.code).map (.wrapped "error received in response" ·)

/-- Modelled from the spec (§4.3, §4.4) and the get-book tests: a
public read is a GET whose parameters travel as the query string;
no ID and no signature are produced; the clock supplies the request
timestamp; a transport failure is wrapped and returned verbatim;
otherwise (status, code) is classified.  On any error the nil book is
returned. -/
def getBook (env : Env) (instrumentName : String) (depth : Int) : OpOut (Option BookResult) :=
  let req := HttpReq.get { method := methodGetBook, nonce := env.nowMs }
    [("instrument_name", instrumentName), ("depth", toString depth)]
  let e? := classifyExchange "failed to execute get request" (env.http req)
  { res := match e? with
      | some _ => none
      | none => env.bookResult
    err? := e?
    calls := [Call.clock, Call.http req] }

/-- Embedded from `internal/gen.go` (`Client.GetInstruments`): the
body takes its ID from the ID generator and its nonce from the clock,
is sent with the requester's `Get`, a transport failure is wrapped as
`failed to execute post request` (the message `gen.go` uses even for
its GET), and the (status, code) pair is then classified, a failure
being wrapped as `error received in response`. -/
def getInstruments (env : Env) : OpOut (List Instrument) :=
  let req := HttpReq.get { id := env.nextId, method := methodGetInstruments, nonce := env.nowMs } []
  let e? := classifyExchange "failed to execute post request" (env.http req)
  { res := match e? with
      | some _ => []
      | none => env.instrumentsResult
    err? := e?
    calls := [Call.genID, Call.clock, Call.http req] }

/-! ### Shared facts about the pipeline -/

/-- A signing failure leaves the trace without any HTTP invocation
and wraps the generator's error. -/
theorem runAuth_eq_sign_error (env : Env) (m : String) (ps : List (String × Value))
    (e : GoError) (h : env.sign (sigReqOf env m ps) = .error e) :
    runAuth env m ps =
      (some (.wrapped "failed to generate signature" e),
       [Call.genID, Call.clock, Call.sign (sigReqOf env m ps)]) := by
  simp only [runAuth, h]

/-- A transport failure after a successful signing wraps the
transport's error; the trace ends with the POST of the signed body. -/
theorem runAuth_eq_http_error (env : Env) (m : String) (ps : List (String × Value))
    (sg : String) (e : GoError)
    (hs : env.sign (sigReqOf env m ps) = .ok sg)
    (hh : env.http (.post (bodyOf env m ps sg)) = .error e) :
    runAuth env m ps =
      (some (.wrapped "failed to execute post request" e),
       [Call.genID, Call.clock, Call.sign (sigReqOf env m ps),
        Call.http (.post (bodyOf env m ps sg))]) := by
  simp only [runAuth, hs, hh]
  rfl

/-- A completed HTTP round trip routes (status, code) to
classification, wrapping any classification error. -/
theorem runAuth_eq_http_ok (env : Env) (m : String) (ps : List (String × Value))
    (sg : String) (resp : HttpResp)
    (hs : env.sign (sigReqOf env m ps) = .ok sg)
    (hh : env.http (.post (bodyOf env m ps sg)) = .ok resp) :
    runAuth env m ps =
      ((checkErrorResponse resp.status resp.code).map (.wrapped "error received in response" ·),
       [Call.genID, Call.clock, Call.sign (sigReqOf env m ps),
        Call.http (.post (bodyOf env m ps sg))]) := by
  simp only [runAuth, hs, hh]
  cases checkErrorResponse resp.status resp.code <;> rfl

/-- With a passing validation, get-trades reports exactly the
pipeline's error and trace. -/
theorem getTrades_valid (env : Env) (req : GetTradesRequest)
    (h1 : ¬req.pageSize < 0) (h2 : ¬200 < req.pageSize) :
    (getTrades env req).err? = (runAuth env methodGetTrades (tradesParams req)).1 ∧
    (getTrades env req).calls = (runAuth env methodGetTrades (tradesParams req)).2 := by
  unfold getTrades
  rw [if_neg h1, if_neg h2]
  rcases h : runAuth env methodGetTrades (tradesParams req) with ⟨e?, calls⟩
  cases e? <;> simp [h]

/-- With a non-empty instrument name, cancel-all-orders reports
exactly the pipeline's error and trace. -/
theorem cancelAllOrders_valid (env : Env) (name : String) (hn : name ≠ "") :
    (cancelAllOrders env name).err? =
      (runAuth env methodCancelAllOrders [("instrument_name", .str name)]).1 ∧
    (cancelAllOrders env name).calls =
      (runAuth env methodCancelAllOrders [("instrument_name", .str name)]).2 := by
  unfold cancelAllOrders
  rw [if_neg hn]
  rcases h : runAuth env methodCancelAllOrders [("instrument_name", .str name)] with ⟨e?, calls⟩
  cases e? <;> simp [h]

/-- The get-book trace: one clock read and one GET; no ID, no
signature, whatever the transport outcome. -/
theorem getBook_calls (env : Env) (n : String) (d : Int) :
    (getBook env n d).calls =
      [Call.clock, Call.http (.get { method := methodGetBook, nonce := env.nowMs }
        [("instrument_name", n), ("depth", toString d)])] :=
  rfl

/-- The get-instruments trace: the ID generator, the clock and one
GET, whatever the transport outcome — as `internal/gen.go` codes it. -/
theorem getInstruments_calls (env : Env) :
    (getInstruments env).calls =
      [Call.genID, Call.clock,
       Call.http (.get { id := env.nextId, method := methodGetInstruments, nonce := env.nowMs } [])] :=
  rfl

/-- Classification of the illegal-IP code, at any HTTP status: the
string code parses to the numeric 10003 and the sentinel is the
illegal-IP sentinel. -/
theorem checkErrorResponse_code10003 (st : Int) :
    checkErrorResponse st "10003" =
      some (.responseError 10003 st (.sentinel .illegalIP)) := by
  have hp : parseCode "10003" = (10003 : Int) := by decide
  have hne : ¬(200 ≤ st ∧ st < 300 ∧ ("10003" : String) = "0") := by
    rintro ⟨-, -, h⟩
    exact absurd h (by decide)
  rw [checkErrorResponse, if_neg hne, hp]
  rfl

/-- Once signing succeeds, the trace is the ID generator, the clock,
the signature generator and the POST of the signed body — whatever
the transport outcome. -/
theorem runAuth_snd (env : Env) (m : String) (ps : List (String × Value)) (sg : String)
    (hs : env.sign (sigReqOf env m ps) = .ok sg) :
    (runAuth env m ps).2 =
      [Call.genID, Call.clock, Call.sign (sigReqOf env m ps),
       Call.http (.post (bodyOf env m ps sg))] := by
  rcases hh : env.http (.post (bodyOf env m ps sg)) with e | resp
  · rw [runAuth_eq_http_error env m ps sg e hs hh]
  · rw [runAuth_eq_http_ok env m ps sg resp hs hh]

/-! ### Concrete environments for closed statements -/

/-- A concrete environment whose collaborators all succeed. -/
def envOk : Env :=
  { apiKey := "some api key", secretKey := "some secret key"
    nowMs := 1600000000000, nextId := 1234
    sign := fun _ => .ok "signature", http := fun _ => .ok ⟨200, "0"⟩ }

/-- The success environment with the transport answering HTTP 418
and exchange code `"10003"`. -/
def env418 : Env := { envOk with http := fun _ => .ok ⟨418, "10003"⟩ }

/-- The success environment with a failing transport. -/
def envHttpErr : Env := { envOk with http := fun _ => .error (.base 7) }

/-- The success environment with a failing signature generator. -/
def envSignErr : Env := { envOk with sign := fun _ => .error (.base 9) }

/-! ### Canonicalization facts -/

/-- Rendering a mapping's entries keeps it a map over the original
entries. -/
theorem canonPairs_eq_map (l : List (String × Value)) :
    canonPairs l = l.map fun kv => (kv.1, canonV kv.2) := by
  induction l with
  | nil => rfl
  | cons p rest ih =>
    obtain ⟨k, v⟩ := p
    simp [canonPairs, ih]

instance : IsTotal (String × String) fun a b => a.1 ≤ b.1 :=
  ⟨fun a b => le_total a.1 b.1⟩

instance : IsTrans (String × String) fun a b => a.1 ≤ b.1 :=
  ⟨fun _ _ _ h1 h2 => le_trans h1 h2⟩

instance : IsAntisymm (String × String) fun a b => a.1 < b.1 :=
  ⟨fun _ _ h1 h2 => absurd h2 (lt_asymm h1)⟩

/-- Key-sorting a rendered mapping with pairwise-distinct keys leaves
the keys strictly increasing. -/
theorem sortPairs_strictSorted (l : List (String × String))
    (hnd : (l.map Prod.fst).Nodup) :
    (sortPairs l).Pairwise fun a b => a.1 < b.1 := by
  unfold sortPairs
  have hle : (List.insertionSort (fun a b : String × String => a.1 ≤ b.1) l).Pairwise
      fun a b : String × String => a.1 ≤ b.1 :=
    List.sorted_insertionSort _ l
  have hperm : ((List.insertionSort (fun a b : String × String => a.1 ≤ b.1) l).map Prod.fst).Perm
      (l.map Prod.fst) :=
    (List.perm_insertionSort _ l).map _
  have hnd2 : ((List.insertionSort (fun a b : String × String => a.1 ≤ b.1) l).map Prod.fst).Nodup :=
    hperm.nodup_iff.mpr hnd
  have hne : (List.insertionSort (fun a b : String × String => a.1 ≤ b.1) l).Pairwise
      fun a b : String × String => a.1 ≠ b.1 :=
    List.pairwise_map.mp hnd2
  exact (hle.and hne).imp fun h => lt_of_le_of_ne h.1 h.2

/-- C8: canonicalization is deterministic and independent of the
mapping's insertion order: two parameter mappings holding the same
key-value pairs (in any order, keys pairwise distinct as in a Go map)
canonicalize to the same string, the keys being sorted before
concatenation. -/
theorem canonicalize_key_order_independent (M1 M2 : List (String × Value))
    (hperm : M1.Perm M2) (hnd : (M1.map Prod.fst).Nodup) :
    canonV (.obj M1) = canonV (.obj M2) := by
  have hmap : (canonPairs M1).Perm (canonPairs M2) := by
    rw [canonPairs_eq_map, canonPairs_eq_map]
    exact hperm.map _
  have hk1 : (canonPairs M1).map Prod.fst = M1.map Prod.fst := by
    rw [canonPairs_eq_map, List.map_map]
    rfl
  have hk2 : (canonPairs M2).map Prod.fst = M2.map Prod.fst := by
    rw [canonPairs_eq_map, List.map_map]
    rfl
  have hnd1 : ((canonPairs M1).map Prod.fst).Nodup := by
    rw [hk1]
    exact hnd
  have hnd2 : ((canonPairs M2).map Prod.fst).Nodup := by
    rw [hk2]
    exact ((hperm.map Prod.fst).nodup_iff).mp hnd
  have hsort : sortPairs (canonPairs M1) = sortPairs (canonPairs M2) := by
    refine List.eq_of_perm_of_sorted
      ?_ (sortPairs_strictSorted _ hnd1) (sortPairs_strictSorted _ hnd2)
    unfold sortPairs
    exact (List.perm_insertionSort _ _).trans (hmap.trans (List.perm_insertionSort _ _).symm)
  simp only [canonV]
  rw [hsort]

/-- C8 witness: two concrete two-entry mappings differing only in
insertion order satisfy the hypotheses and canonicalize identically. -/
theorem canonicalize_key_order_independent_witness :
    ([("b", Value.int 2), ("a", Value.str "x")] : List (String × Value)).Perm
        [("a", Value.str "x"), ("b", Value.int 2)] ∧
    (([("b", Value.int 2), ("a", Value.str "x")] : List (String × Value)).map Prod.fst).Nodup ∧
    canonV (.obj [("b", Value.int 2), ("a", Value.str "x")]) =
      canonV (.obj [("a", Value.str "x"), ("b", Value.int 2)]) := by
  refine ⟨List.Perm.swap _ _ _, ?hnd, ?_⟩
  case hnd => decide
  exact canonicalize_key_order_independent _ _ (List.Perm.swap _ _ _) (by decide)

/-- C1: cancel-all-orders, with API key `k`, secret `s`, a fixed
clock at `T` milliseconds and an ID generator returning 1234, called
with instrument `BTC_USDT` and the real signature generator: the
trace is one ID generation, one clock read, one signing of
{APIKey = k, SecretKey = s, ID = 1234, Method = the cancel-all-orders
method string, Timestamp = T, Params = {"instrument_name": "BTC_USDT"}},
and one POST whose body carries id 1234, nonce T, exactly those
params, api_key k and sig equal to the signature generator's result
on that request; and that signature is HMAC-SHA256 keyed by `s` over
`"CANCEL_ALL_ORDERS" ++ "1234" ++ k ++ "instrument_nameBTC_USDT" ++`
the decimal text of `T`. -/
theorem cancelAllOrders_outbound_envelope (k s : String) (T : Int)
    (httpF : HttpReq → Except GoError HttpResp) :
    let env : Env :=
      { apiKey := k, secretKey := s, nowMs := T, nextId := 1234
        sign := fun r => .ok (generateSignature r), http := httpF }
    let sigReq : SignatureRequest :=
      { apiKey := k, secretKey := s, id := 1234, method := methodCancelAllOrders
        timestamp := T, params := [("instrument_name", .str "BTC_USDT")] }
    (cancelAllOrders env "BTC_USDT").calls =
      [Call.genID, Call.clock, Call.sign sigReq,
       Call.http (.post
         { id := 1234, method := methodCancelAllOrders, apiKey := k
           params := [("instrument_name", .str "BTC_USDT")], nonce := T
           sig := generateSignature sigReq })] ∧
    generateSignature sigReq =
      hmacSHA256Hex s
        ("CANCEL_ALL_ORDERS" ++ "1234" ++ k ++ "instrument_nameBTC_USDT" ++ toString T) := by
  intro env sigReq
  constructor
  · rw [(cancelAllOrders_valid env "BTC_USDT" (by decide)).2]
    rw [runAuth_snd env methodCancelAllOrders [("instrument_name", .str "BTC_USDT")]
      (generateSignature sigReq) rfl]
    rfl
  · show hmacSHA256Hex s
        (methodCancelAllOrders ++ toString (1234 : Int) ++ k ++
          canonParams [("instrument_name", .str "BTC_USDT")] ++ toString T) = _
    have h1 : toString (1234 : Int) = "1234" := rfl
    have h2 : canonParams [("instrument_name", Value.str "BTC_USDT")] =
        "instrument_nameBTC_USDT" := by decide
    rw [h1, h2]
    rfl

/-- C10: when the response envelope carries its exchange code as the
JSON string `"10003"`, classification parses it into the numeric
`Code` field of the resulting `ResponseError` (Code = 10003, with the
illegal-IP sentinel), whatever the HTTP status, so callers observe
the code as a number regardless of the wire representation. -/
theorem stringCode_parsed_to_numeric (st : Int) :
    checkErrorResponse st "10003" =
      some (.responseError 10003 st (.sentinel .illegalIP)) :=
  checkErrorResponse_code10003 st

/-- C2: for every operation (cancel-all-orders, get-trades,
get-book), a server answer of HTTP 418 with exchange code `"10003"`
yields an error from which a `ResponseError` with Code 10003,
HTTPStatusCode 418 and `Err = ErrIllegalIP` is extractable, and
whose chain contains the illegal-IP sentinel. -/
theorem illegalIP_error_classified (k s : String) (T idv : Int) (sg : String)
    (name : String) (hn : name ≠ "") (req : GetTradesRequest)
    (h1 : ¬req.pageSize < 0) (h2 : ¬200 < req.pageSize) (d : Int) :
    let env : Env :=
      { apiKey := k, secretKey := s, nowMs := T, nextId := idv
        sign := fun _ => .ok sg, http := fun _ => .ok ⟨418, "10003"⟩ }
    (∃ e, (cancelAllOrders env name).err? = some e ∧
        errorsAsResponse e = some (10003, 418, ErrIllegalIP) ∧ ErrorsIs e ErrIllegalIP) ∧
    (∃ e, (getTrades env req).err? = some e ∧
        errorsAsResponse e = some (10003, 418, ErrIllegalIP) ∧ ErrorsIs e ErrIllegalIP) ∧
    (∃ e, (getBook env name d).err? = some e ∧
        errorsAsResponse e = some (10003, 418, ErrIllegalIP) ∧ ErrorsIs e ErrIllegalIP) := by
  intro env
  refine ⟨⟨.wrapped "error received in response" (.responseError 10003 418 (.sentinel .illegalIP)),
      ?_, rfl, ErrorsIs.unwrapWrapped _ (ErrorsIs.unwrapResponse _ _ (ErrorsIs.refl _))⟩,
    ⟨.wrapped "error received in response" (.responseError 10003 418 (.sentinel .illegalIP)),
      ?_, rfl, ErrorsIs.unwrapWrapped _ (ErrorsIs.unwrapResponse _ _ (ErrorsIs.refl _))⟩,
    ⟨.wrapped "error received in response" (.responseError 10003 418 (.sentinel .illegalIP)),
      ?_, rfl, ErrorsIs.unwrapWrapped _ (ErrorsIs.unwrapResponse _ _ (ErrorsIs.refl _))⟩⟩
  · rw [(cancelAllOrders_valid env name hn).1,
      runAuth_eq_http_ok env methodCancelAllOrders [("instrument_name", .str name)] sg
        ⟨418, "10003"⟩ rfl rfl]
    rfl
  · rw [(getTrades_valid env req h1 h2).1,
      runAuth_eq_http_ok env methodGetTrades (tradesParams req) sg ⟨418, "10003"⟩ rfl rfl]
    rfl
  · rfl

/-- C2 witness: the concrete instantiation with instrument
`some instrument`, the default get-trades request and depth 1. -/
theorem illegalIP_error_classified_witness :
    ("some instrument" : String) ≠ "" ∧
    ¬(({} : GetTradesRequest).pageSize < 0) ∧
    ¬(200 < ({} : GetTradesRequest).pageSize) ∧
    (let env : Env :=
      { apiKey := "k", secretKey := "s", nowMs := 7, nextId := 1234
        sign := fun _ => .ok "signature", http := fun _ => .ok ⟨418, "10003"⟩ }
     (∃ e, (cancelAllOrders env "some instrument").err? = some e ∧
        errorsAsResponse e = some (10003, 418, ErrIllegalIP) ∧ ErrorsIs e ErrIllegalIP) ∧
     (∃ e, (getTrades env {}).err? = some e ∧
        errorsAsResponse e = some (10003, 418, ErrIllegalIP) ∧ ErrorsIs e ErrIllegalIP) ∧
     (∃ e, (getBook env "some instrument" 1).err? = some e ∧
        errorsAsResponse e = some (10003, 418, ErrIllegalIP) ∧ ErrorsIs e ErrIllegalIP)) :=
  ⟨by decide, by decide, by decide,
   illegalIP_error_classified "k" "s" 7 1234 "signature" "some instrument" (by decide)
     {} (by decide) (by decide) 1⟩

/-- C3: an invalid operation-specific parameter (empty required
instrument name for cancel-all-orders; out-of-range page size for
get-trades) yields an `InvalidParameterError` with an empty
collaborator trace: no ID generated, no signature computed, no
network request made. -/
theorem validation_precedes_collaborators :
    (∀ env : Env, (cancelAllOrders env "").calls = [] ∧
        (cancelAllOrders env "").err? =
          some (.invalidParameter "instrumentName" "cannot be empty")) ∧
    (∀ (env : Env) (req : GetTradesRequest), req.pageSize < 0 ∨ 200 < req.pageSize →
        (getTrades env req).calls = [] ∧
        ∃ p r, (getTrades env req).err? = some (.invalidParameter p r)) := by
  constructor
  · intro env
    exact ⟨rfl, rfl⟩
  · intro env req h
    rcases h with h | h
    · unfold getTrades
      rw [if_pos h]
      exact ⟨rfl, "req.Limit", "cannot be less than 0", rfl⟩
    · unfold getTrades
      rw [if_neg (by omega), if_pos h]
      exact ⟨rfl, "req.Limit", "cannot be greater than 200", rfl⟩

/-- C3 witness: page size -1 and the empty instrument name, in the
all-successful environment. -/
theorem validation_precedes_collaborators_witness :
    ((-1 : Int) < 0 ∨ 200 < (-1 : Int)) ∧
    (getTrades envOk { pageSize := -1 }).calls = [] ∧
    (cancelAllOrders envOk "").calls = [] :=
  ⟨Or.inl (by decide),
   (validation_precedes_collaborators.2 envOk { pageSize := -1 } (Or.inl (by decide))).1,
   (validation_precedes_collaborators.1 envOk).1⟩

/-- C4: the exact client-side validation errors: get-trades rejects
every negative page size with `InvalidParameterError{"req.Limit",
"cannot be less than 0"}` and every page size above 200 with
`InvalidParameterError{"req.Limit", "cannot be greater than 200"}`;
cancel-all-orders rejects the empty instrument name with
`InvalidParameterError{"instrumentName", "cannot be empty"}`; in each
case no HTTP call is made. -/
theorem invalidParameter_exact_values :
    (∀ (env : Env) (req : GetTradesRequest), req.pageSize < 0 →
        (getTrades env req).err? =
          some (.invalidParameter "req.Limit" "cannot be less than 0") ∧
        ((getTrades env req).calls.any Call.isHttp) = false) ∧
    (∀ (env : Env) (req : GetTradesRequest), 200 < req.pageSize →
        (getTrades env req).err? =
          some (.invalidParameter "req.Limit" "cannot be greater than 200") ∧
        ((getTrades env req).calls.any Call.isHttp) = false) ∧
    (∀ env : Env, (cancelAllOrders env "").err? =
          some (.invalidParameter "instrumentName" "cannot be empty") ∧
        ((cancelAllOrders env "").calls.any Call.isHttp) = false) := by
  refine ⟨?_, ?_, ?_⟩
  · intro env req h
    unfold getTrades
    rw [if_pos h]
    exact ⟨rfl, rfl⟩
  · intro env req h
    unfold getTrades
    rw [if_neg (by omega), if_pos h]
    exact ⟨rfl, rfl⟩
  · intro env
    exact ⟨rfl, rfl⟩

/-- C4 witness: page sizes -1 and 201 and the empty instrument name,
in the all-successful environment. -/
theorem invalidParameter_exact_values_witness :
    ((-1 : Int) < 0) ∧ ((200 : Int) < 201) ∧
    (getTrades envOk { pageSize := -1 }).err? =
      some (.invalidParameter "req.Limit" "cannot be less than 0") ∧
    (getTrades envOk { pageSize := 201 }).err? =
      some (.invalidParameter "req.Limit" "cannot be greater than 200") ∧
    (cancelAllOrders envOk "").err? =
      some (.invalidParameter "instrumentName" "cannot be empty") :=
  ⟨by decide, by decide,
   (invalidParameter_exact_values.1 envOk { pageSize := -1 } (by decide)).1,
   (invalidParameter_exact_values.2.1 envOk { pageSize := 201 } (by decide)).1,
   (invalidParameter_exact_values.2.2 envOk).1⟩

/-- C5 counterexample: get-instruments is a public, read-only
operation (method `public/get-instruments`), yet — exactly as
`internal/gen.go` codes it, `ID: c.idGenerator.Generate()` — its
trace contains an ID-generator invocation, refuting the claim that
public operations do not invoke the IDGenerator. -/
theorem getInstruments_invokes_idGenerator :
    methodGetInstruments = "public/get-instruments" ∧
    ((getInstruments envOk).calls.any Call.isGenID) = true :=
  ⟨rfl, rfl⟩

/-- C5 (amended): public, read-only operations never invoke the
SignatureGenerator: get-book invokes neither the IDGenerator nor the
SignatureGenerator while still using the Clock; get-instruments skips
the SignatureGenerator but draws its request ID from the IDGenerator
alongside the Clock; both authenticated operations
(cancel-all-orders and get-trades) attach ID, Nonce and Signature to
the envelope they POST. -/
theorem public_ops_skip_signing (env : Env) (n : String) (d : Int) :
    ((getBook env n d).calls.any Call.isSign) = false ∧
    ((getBook env n d).calls.any Call.isGenID) = false ∧
    ((getBook env n d).calls.any Call.isClock) = true ∧
    ((getInstruments env).calls.any Call.isSign) = false ∧
    ((getInstruments env).calls.any Call.isGenID) = true ∧
    ((getInstruments env).calls.any Call.isClock) = true ∧
    (∀ (k s : String) (T idv : Int) (sg : String)
        (httpF : HttpReq → Except GoError HttpResp) (name : String), name ≠ "" →
      postBodies (cancelAllOrders
          { apiKey := k, secretKey := s, nowMs := T, nextId := idv
            sign := fun _ => .ok sg, http := httpF } name) =
        [{ id := idv, method := methodCancelAllOrders, apiKey := k
           params := [("instrument_name", .str name)], nonce := T, sig := sg }]) ∧
    (∀ (k s : String) (T idv : Int) (sg : String)
        (httpF : HttpReq → Except GoError HttpResp) (req : GetTradesRequest),
      ¬req.pageSize < 0 → ¬200 < req.pageSize →
      postBodies (getTrades
          { apiKey := k, secretKey := s, nowMs := T, nextId := idv
            sign := fun _ => .ok sg, http := httpF } req) =
        [{ id := idv, method := methodGetTrades, apiKey := k
           params := tradesParams req, nonce := T, sig := sg }]) := by
  refine ⟨rfl, rfl, rfl, rfl, rfl, rfl, ?_, ?_⟩
  · intro k s T idv sg httpF name hname
    simp only [postBodies]
    rw [(cancelAllOrders_valid _ name hname).2,
      runAuth_snd _ methodCancelAllOrders [("instrument_name", .str name)] sg rfl]
    rfl
  · intro k s T idv sg httpF req hr1 hr2
    simp only [postBodies]
    rw [(getTrades_valid _ req hr1 hr2).2,
      runAuth_snd _ methodGetTrades (tradesParams req) sg rfl]
    rfl

/-- C5 amended witness: concrete instantiations discharging the
non-emptiness and page-size hypotheses of the authenticated
clauses. -/
theorem public_ops_skip_signing_witness :
    ("BTC_USDT" : String) ≠ "" ∧
    ¬(({ page := 9 } : GetTradesRequest).pageSize < 0) ∧
    ¬(200 < ({ page := 9 } : GetTradesRequest).pageSize) ∧
    postBodies (cancelAllOrders
        { apiKey := "k", secretKey := "s", nowMs := 7, nextId := 1234
          sign := fun _ => .ok "sg", http := fun _ => .ok ⟨200, "0"⟩ } "BTC_USDT") =
      [{ id := 1234, method := methodCancelAllOrders, apiKey := "k"
         params := [("instrument_name", .str "BTC_USDT")], nonce := 7, sig := "sg" }] ∧
    postBodies (getTrades
        { apiKey := "k", secretKey := "s", nowMs := 7, nextId := 1234
          sign := fun _ => .ok "sg", http := fun _ => .ok ⟨200, "0"⟩ } { page := 9 }) =
      [{ id := 1234, method := methodGetTrades, apiKey := "k"
         params := tradesParams { page := 9 }, nonce := 7, sig := "sg" }] ∧
    ((getBook envOk "BTC_USDT" 5).calls.any Call.isSign) = false :=
  ⟨by decide, by decide, by decide,
   (public_ops_skip_signing envOk "BTC_USDT" 5).2.2.2.2.2.2.1 "k" "s" 7 1234 "sg"
     (fun _ => .ok ⟨200, "0"⟩) "BTC_USDT" (by decide),
   (public_ops_skip_signing envOk "BTC_USDT" 5).2.2.2.2.2.2.2 "k" "s" 7 1234 "sg"
     (fun _ => .ok ⟨200, "0"⟩) { page := 9 } (by decide) (by decide),
   (public_ops_skip_signing envOk "BTC_USDT" 5).1⟩

/-- C6 counterexample: for the default get-trades request every
optional field is unset, yet the parameter mapping handed to the
signature generator contains the key `"page"` (with value 0) — the
unset `page` field is not absent, refuting the claim for `page`. -/
theorem unset_page_still_sent :
    ((signReqs (getTrades envOk {})).any fun r =>
      r.params.any fun kv => kv.1 == "page") = true :=
  rfl

/-- C6 (amended): for every get-trades request, each unset optional
field among the instrument name, the page size and the start/end
timestamps is absent from the parameter mapping (and each set one is
present), while the `page` key is always included with the request's
page value (0 when unset); that mapping is exactly what is handed to
the signature generator and serialized into the outbound body, so
omission and explicit absence produce identical canonical input for
the truly optional fields. -/
theorem unset_optionals_omitted (env : Env) (req : GetTradesRequest)
    (h1 : ¬req.pageSize < 0) (h2 : ¬200 < req.pageSize) :
    ("instrument_name" ∈ (tradesParams req).map Prod.fst ↔ req.instrumentName ≠ "") ∧
    ("page_size" ∈ (tradesParams req).map Prod.fst ↔ req.pageSize ≠ 0) ∧
    ("start_ts" ∈ (tradesParams req).map Prod.fst ↔ req.startTs ≠ none) ∧
    ("end_ts" ∈ (tradesParams req).map Prod.fst ↔ req.endTs ≠ none) ∧
    ("page", Value.int req.page) ∈ tradesParams req ∧
    signReqs (getTrades env req) = [sigReqOf env methodGetTrades (tradesParams req)] ∧
    (∀ b ∈ postBodies (getTrades env req), b.params = tradesParams req) := by
  have hmem : ("instrument_name" ∈ (tradesParams req).map Prod.fst ↔
        req.instrumentName ≠ "") ∧
      ("page_size" ∈ (tradesParams req).map Prod.fst ↔ req.pageSize ≠ 0) ∧
      ("start_ts" ∈ (tradesParams req).map Prod.fst ↔ req.startTs ≠ none) ∧
      ("end_ts" ∈ (tradesParams req).map Prod.fst ↔ req.endTs ≠ none) ∧
      ("page", Value.int req.page) ∈ tradesParams req := by
    by_cases hi : req.instrumentName = "" <;>
      by_cases hp : req.pageSize = 0 <;>
      rcases hst : req.startTs with _ | t1 <;>
      rcases hen : req.endTs with _ | t2 <;>
      simp [tradesParams, hi, hp, hst, hen]
  have hval := getTrades_valid env req h1 h2
  refine ⟨hmem.1, hmem.2.1, hmem.2.2.1, hmem.2.2.2.1, hmem.2.2.2.2, ?_, ?_⟩
  · rcases hs : env.sign (sigReqOf env methodGetTrades (tradesParams req)) with e | sg
    · simp only [signReqs]
      rw [hval.2, runAuth_eq_sign_error env methodGetTrades (tradesParams req) e hs]
      rfl
    · simp only [signReqs]
      rw [hval.2, runAuth_snd env methodGetTrades (tradesParams req) sg hs]
      rfl
  · intro b hb
    simp only [postBodies] at hb
    rcases hs : env.sign (sigReqOf env methodGetTrades (tradesParams req)) with e | sg
    · rw [hval.2, runAuth_eq_sign_error env methodGetTrades (tradesParams req) e hs] at hb
      simp [List.filterMap] at hb
    · rw [hval.2, runAuth_snd env methodGetTrades (tradesParams req) sg hs] at hb
      have hb2 : b = bodyOf env methodGetTrades (tradesParams req) sg := by
        simpa using hb
      rw [hb2]
      rfl

/-- A mixed get-trades request for the C6 witness: instrument name
set, page size unset, page 2, start timestamp set, end unset. -/
def reqMixed : GetTradesRequest :=
  { instrumentName := "ETH_CRO", page := 2, startTs := some 5 }

/-- C6 amended witness: the mixed request discharges the page-size
hypotheses; the set fields are present, the unset page size absent,
and the singleton POST body carries exactly the mapping. -/
theorem unset_optionals_omitted_witness :
    ¬(reqMixed.pageSize < 0) ∧
    ¬(200 < reqMixed.pageSize) ∧
    ("instrument_name" ∈ (tradesParams reqMixed).map Prod.fst ↔
      reqMixed.instrumentName ≠ "") ∧
    ("page_size" ∈ (tradesParams reqMixed).map Prod.fst ↔ reqMixed.pageSize ≠ 0) ∧
    signReqs (getTrades envOk reqMixed) =
      [sigReqOf envOk methodGetTrades (tradesParams reqMixed)] ∧
    (let b0 : Request :=
      { id := 1234, method := methodGetTrades, apiKey := "some api key"
        params := tradesParams reqMixed, nonce := 1600000000000, sig := "signature" }
     b0 ∈ postBodies (getTrades envOk reqMixed) ∧ b0.params = tradesParams reqMixed) :=
  ⟨by decide, by decide,
   (unset_optionals_omitted envOk reqMixed (by decide) (by decide)).1,
   (unset_optionals_omitted envOk reqMixed (by decide) (by decide)).2.1,
   (unset_optionals_omitted envOk reqMixed (by decide) (by decide)).2.2.2.2.2.1,
   List.Mem.head _,
   (unset_optionals_omitted envOk reqMixed (by decide) (by decide)).2.2.2.2.2.2 _
     (List.Mem.head _)⟩

/-- C7: a failing transport's error is wrapped and returned verbatim
— the chain contains the original error and no `ResponseError` is
extractable — for cancel-all-orders, get-trades and get-book; a
failing signature generator's error is likewise propagated, and the
call aborts before any HTTP invocation. -/
theorem transport_and_signing_errors_propagated (k s : String) (T idv : Int) (sg : String)
    (tid sid : Nat) (name : String) (hn : name ≠ "") (req : GetTradesRequest)
    (h1 : ¬req.pageSize < 0) (h2 : ¬200 < req.pageSize) (d : Int) :
    let envT : Env :=
      { apiKey := k, secretKey := s, nowMs := T, nextId := idv
        sign := fun _ => .ok sg, http := fun _ => .error (.base tid) }
    let envS : Env :=
      { apiKey := k, secretKey := s, nowMs := T, nextId := idv
        sign := fun _ => .error (.base sid), http := fun _ => .ok ⟨200, "0"⟩ }
    (∃ e, (cancelAllOrders envT name).err? = some e ∧
        ErrorsIs e (.base tid) ∧ errorsAsResponse e = none) ∧
    (∃ e, (getTrades envT req).err? = some e ∧
        ErrorsIs e (.base tid) ∧ errorsAsResponse e = none) ∧
    (∃ e, (getBook envT name d).err? = some e ∧
        ErrorsIs e (.base tid) ∧ errorsAsResponse e = none) ∧
    (∃ e, (cancelAllOrders envS name).err? = some e ∧ ErrorsIs e (.base sid) ∧
        ((cancelAllOrders envS name).calls.any Call.isHttp) = false) ∧
    (∃ e, (getTrades envS req).err? = some e ∧ ErrorsIs e (.base sid) ∧
        ((getTrades envS req).calls.any Call.isHttp) = false) := by
  intro envT envS
  refine ⟨⟨.wrapped "failed to execute post request" (.base tid), ?_,
      ErrorsIs.unwrapWrapped _ (ErrorsIs.refl _), rfl⟩,
    ⟨.wrapped "failed to execute post request" (.base tid), ?_,
      ErrorsIs.unwrapWrapped _ (ErrorsIs.refl _), rfl⟩,
    ⟨.wrapped "failed to execute get request" (.base tid), rfl,
      ErrorsIs.unwrapWrapped _ (ErrorsIs.refl _), rfl⟩,
    ⟨.wrapped "failed to generate signature" (.base sid), ?_,
      ErrorsIs.unwrapWrapped _ (ErrorsIs.refl _), ?_⟩,
    ⟨.wrapped "failed to generate signature" (.base sid), ?_,
      ErrorsIs.unwrapWrapped _ (ErrorsIs.refl _), ?_⟩⟩
  · rw [(cancelAllOrders_valid envT name hn).1,
      runAuth_eq_http_error envT methodCancelAllOrders [("instrument_name", .str name)] sg
        (.base tid) rfl rfl]
  · rw [(getTrades_valid envT req h1 h2).1,
      runAuth_eq_http_error envT methodGetTrades (tradesParams req) sg (.base tid) rfl rfl]
  · rw [(cancelAllOrders_valid envS name hn).1,
      runAuth_eq_sign_error envS methodCancelAllOrders [("instrument_name", .str name)]
        (.base sid) rfl]
  · rw [(cancelAllOrders_valid envS name hn).2,
      runAuth_eq_sign_error envS methodCancelAllOrders [("instrument_name", .str name)]
        (.base sid) rfl]
    rfl
  · rw [(getTrades_valid envS req h1 h2).1,
      runAuth_eq_sign_error envS methodGetTrades (tradesParams req) (.base sid) rfl]
  · rw [(getTrades_valid envS req h1 h2).2,
      runAuth_eq_sign_error envS methodGetTrades (tradesParams req) (.base sid) rfl]
    rfl

/-- C7 witness: concrete instantiation with instrument `BTC_USDT`,
the default get-trades request, transport error 7 and signing error
9. -/
theorem transport_and_signing_errors_propagated_witness :
    ("BTC_USDT" : String) ≠ "" ∧
    ¬(({} : GetTradesRequest).pageSize < 0) ∧
    ¬(200 < ({} : GetTradesRequest).pageSize) ∧
    (∃ e, (cancelAllOrders
        { apiKey := "k", secretKey := "s", nowMs := 7, nextId := 1
          sign := fun _ => .ok "sg", http := fun _ => .error (.base 7) } "BTC_USDT").err? =
        some e ∧ ErrorsIs e (.base 7) ∧ errorsAsResponse e = none) := by
  refine ⟨by decide, by decide, by decide, ?_⟩
  exact (transport_and_signing_errors_propagated "k" "s" 7 1 "sg" 7 9 "BTC_USDT"
    (by decide) {} (by decide) (by decide) 3).1

/-- C9: whenever get-trades or get-book returns an error — from
validation, signing, transport or response classification — the
returned domain result is the zero value: the empty trade list, the
nil book. -/
theorem error_implies_empty_result :
    (∀ (env : Env) (req : GetTradesRequest) (e : GoError),
        (getTrades env req).err? = some e → (getTrades env req).res = []) ∧
    (∀ (env : Env) (n : String) (d : Int) (e : GoError),
        (getBook env n d).err? = some e → (getBook env n d).res = none) := by
  constructor
  · intro env req e h
    unfold getTrades at h ⊢
    by_cases hv1 : req.pageSize < 0
    · rw [if_pos hv1]
    · by_cases hv2 : 200 < req.pageSize
      · rw [if_neg hv1, if_pos hv2]
      · rw [if_neg hv1, if_neg hv2] at h ⊢
        rcases hr : runAuth env methodGetTrades (tradesParams req) with ⟨e?, calls⟩
        rw [hr] at h
        cases e? with
        | some e' => rfl
        | none => simp at h
  · intro env n d e h
    simp only [getBook] at h ⊢
    rw [h]

/-- C9 witness: with a failing transport, both operations report the
wrapped transport error and return the empty result. -/
theorem error_implies_empty_result_witness :
    (getTrades envHttpErr {}).err? =
      some (.wrapped "failed to execute post request" (.base 7)) ∧
    (getTrades envHttpErr {}).res = [] ∧
    (getBook envHttpErr "i" 1).err? =
      some (.wrapped "failed to execute get request" (.base 7)) ∧
    (getBook envHttpErr "i" 1).res = none :=
  ⟨rfl, error_implies_empty_result.1 envHttpErr {} _ rfl,
   rfl, error_implies_empty_result.2 envHttpErr "i" 1 _ rfl⟩

end CdcExchange
